import Mathlib

/-!
Verification of the dexbotchecker tracking engine (src/main.py).

A shallow embedding of the per-chat tracking lifecycle of the bot in
`src/main.py`.  Pure helpers (`time_since`, address validation, slot
parsing) are translated directly; the stateful command handlers
(`track_command`, `handle_replace_callback`, `check_for_updates`,
`stop_tracking`) become explicit state-passing functions over a
`Storage` record, with the external status API modelled as oracle
functions `fetch : String → Option (String × ℚ × String)` (status,
payment timestamp, symbol; `none` = fetch failure) and
`hdr : String → Option String` (header image URL).

Python timestamps (`time.time()` floats and millisecond integers from
the API) are modelled as rationals, so floor division and `%` are exact.
The Python `dict` that holds the tracked tokens preserves insertion
order, re-assigning an existing key keeps its position, and `del`
removes exactly the given key; it is modelled as an association list
`List (String × TokenInfo)` whose keys are pairwise distinct.
-/

/-- The constant `MAX_TRACKING_SLOTS` (= 2) from src/main.py line 25. -/
def MAX_TRACKING_SLOTS : Nat := 2

/-- One tracked token entry: the value stored in `tracked_tokens[addr]`
(src/main.py lines 161-165). -/
structure TokenInfo where
  symbol : String
  last_status : String
  last_change : ℚ
deriving DecidableEq, Repr

/-- The per-chat storage dictionary (`context.chat_data` / `context.user_data`):
the `tracked_tokens` key (absent = `none`) and the `pending_token` key. -/
structure Storage where
  tracked_tokens : Option (List (String × TokenInfo))
  pending_token : Option String
deriving DecidableEq, Repr

/-- A message delivered to the chat: `reply_text`/`send_message`,
`reply_photo`/`send_photo`, or `edit_message_text`. -/
inductive Sent where
  | text (msg : String)
  | photo (url : String) (caption : String)
  | edit (msg : String)
deriving DecidableEq, Repr

/-- The keys of the tracked-token dictionary, in insertion order. -/
def keysOf (ts : List (String × TokenInfo)) : List String :=
  ts.map Prod.fst

/-- Number of tracked items a storage holds (`len(storage.get('tracked_tokens', {}))`). -/
def lenTracked (st : Storage) : Nat :=
  (st.tracked_tokens.getD []).length

/-- One character of the base58-like alphabet `[1-9A-HJ-NP-Za-km-z]`
of `SOLANA_ADDRESS_PATTERN` (src/main.py line 26). -/
def isBase58Char (c : Char) : Bool :=
  (decide ('1' ≤ c) && decide (c ≤ '9')) ||
  (decide ('A' ≤ c) && decide (c ≤ 'H')) ||
  (decide ('J' ≤ c) && decide (c ≤ 'N')) ||
  (decide ('P' ≤ c) && decide (c ≤ 'Z')) ||
  (decide ('a' ≤ c) && decide (c ≤ 'k')) ||
  (decide ('m' ≤ c) && decide (c ≤ 'z'))

/-- Python `re.match(SOLANA_ADDRESS_PATTERN, s)`: 32-44 characters, all from the
base58-like alphabet (the pattern is anchored on both ends). -/
def isValidSolanaAddress (s : String) : Bool :=
  decide (32 ≤ s.length) && decide (s.length ≤ 44) && s.data.all isBase58Char

/-- Python `str.strip()`: remove leading and trailing whitespace.
(Defined over the character list so that it reduces definitionally;
the core `String.trim` uses well-founded recursion.) -/
def pyStrip (s : String) : String :=
  ⟨((s.data.dropWhile Char.isWhitespace).reverse.dropWhile Char.isWhitespace).reverse⟩

/-- Python `str.lower()` on the ASCII status strings this program
compares (a character-list version of `String.toLower`). -/
def pyLower (s : String) : String :=
  ⟨s.data.map Char.toLower⟩

/-- Split a character list at every occurrence of `sep`. -/
def splitChars (sep : Char) : List Char → List (List Char)
  | [] => [[]]
  | c :: rest =>
    if c = sep then [] :: splitChars sep rest
    else
      match splitChars sep rest with
      | [] => [[c]]
      | p :: ps => (c :: p) :: ps

/-- Python `s.split('_')` (a structurally recursive version of
`String.splitOn "_"`). -/
def pySplitUnderscore (s : String) : List String :=
  (splitChars '_' s.data).map (fun cs => ⟨cs⟩)

/-- Python `int(s)` on the strings that can appear as a slot selector:
optional surrounding whitespace, an optional sign, then at least one
digit; anything else raises `ValueError`, modelled as `none`. -/
def pyInt (s : String) : Option Int :=
  let t := (pyStrip s).data
  let (sign, digits) :=
    match t with
    | '-' :: rest => ((-1 : Int), rest)
    | '+' :: rest => ((1 : Int), rest)
    | _ => ((1 : Int), t)
  if decide (0 < digits.length) && digits.all Char.isDigit then
    some (sign * (digits.foldl (fun acc c => acc * 10 + (c.toNat - 48)) 0 : Nat))
  else
    none

/-- Python list indexing `l[i]`: a negative index counts from the end;
an index outside `[-len l, len l)` raises `IndexError`, modelled as `none`. -/
def pyIndex {α : Type} (l : List α) (i : Int) : Option α :=
  if 0 ≤ i then l[i.toNat]?
  else if 0 ≤ (l.length : Int) + i then l[((l.length : Int) + i).toNat]?
  else none

/-- Python dict assignment `d[k] = v`: overwrite in place when the key
exists, otherwise append at the end of the insertion order. -/
def dictInsert (ts : List (String × TokenInfo)) (k : String) (v : TokenInfo) :
    List (String × TokenInfo) :=
  if ts.any (fun p => p.1 == k) then
    ts.map (fun p => if p.1 == k then (k, v) else p)
  else
    ts ++ [(k, v)]

/-- The function `time_since` (src/main.py lines 84-99).  `now` is `time.time()` in
seconds, `timestamp` the payment timestamp in milliseconds.  Python
float floor-division and `%` on the non-negative `diff` agree with
`Int.floor` and `Int.emod`; `int(diff)` truncates, which equals the
floor because `diff ≥ 0` on that path. -/
def time_since (now : ℚ) (timestamp : ℚ) : String :=
  if timestamp ≤ 0 then "Unknown"
  else
    let diff := now - timestamp / 1000
    if diff < 0 then "Not yet paid"
    else
      let days : Int := ⌊diff / 86400⌋
      let hours : Int := ⌊diff / 3600⌋ % 24
      let minutes : Int := ⌊diff / 60⌋ % 60
      if 1 ≤ days then toString days ++ " days"
      else if 1 ≤ hours then toString hours ++ " hours"
      else if 1 ≤ minutes then toString minutes ++ " minutes"
      else toString ⌊diff⌋ ++ " seconds"

/-- The relative-time formatter as the specification words it: "Unknown"
for any input that is not a positive number, "Not yet paid" for a
timestamp strictly in the future of `now`, otherwise the first non-zero
bucket among days, hours (mod 24) and minutes (mod 60), and the elapsed
whole seconds when all three buckets are zero. -/
def timeSinceClaim (now : ℚ) (timestamp : ℚ) : String :=
  if ¬ 0 < timestamp then "Unknown"
  else if now < timestamp / 1000 then "Not yet paid"
  else
    let diff := now - timestamp / 1000
    let days : Int := ⌊diff / 86400⌋
    let hours : Int := ⌊diff / 3600⌋ % 24
    let minutes : Int := ⌊diff / 60⌋ % 60
    if days ≠ 0 then toString days ++ " days"
    else if hours ≠ 0 then toString hours ++ " hours"
    else if minutes ≠ 0 then toString minutes ++ " minutes"
    else toString ⌊diff⌋ ++ " seconds"

/-! ## StatusProvider: `fetch_token_info` with its tenacity retry wrapper

The coroutine `fetch_token_info` (src/main.py lines 39-67) is wrapped in
`@retry(stop=stop_after_attempt(3), wait=wait_fixed(2))`.  tenacity
re-invokes the coroutine only when it raises; a return value (including
the `(None, None, None)` failure value) ends the call.  The transport is
modelled as a list of per-attempt environments: what the primary
(orders) and secondary (token-pairs) lookups would produce on each
attempt. -/

/-- One element of the primary lookup's JSON body:
`{'status': ..., 'paymentTimestamp': ...}`. -/
structure OrderRecord where
  status : String
  paymentTimestamp : ℚ
deriving DecidableEq, Repr

/-- Outcome of one HTTP lookup attempt: the transport raises
`aiohttp.ClientError`, or the 200-response body fails to parse as JSON
(an exception that is NOT `aiohttp.ClientError` and escapes the
function), or an HTTP response arrives with a status code and a parsed
body. -/
inductive PrimaryResp where
  | clientError
  | badJson
  | http (code : Nat) (body : List OrderRecord)
deriving DecidableEq, Repr

/-- Outcome of the secondary (token-pairs) lookup: the body is the list
of `pair.get('baseToken', {}).get('symbol', 'Unknown')` values, `none`
standing for a missing symbol key.  `badJson` is a 200 response whose
body fails to parse (exception escapes); on a non-200 response the code
never parses the body (`pairs_data = {}`). -/
inductive PairsResp where
  | clientError
  | badJson
  | http (code : Nat) (symbols : List (Option String))
deriving DecidableEq, Repr

/-- What the external API would serve for one attempt of `fetch_token_info`. -/
structure FetchAttemptEnv where
  primary : PrimaryResp
  secondary : PairsResp
deriving DecidableEq, Repr

/-- One execution of the body of `fetch_token_info` (src/main.py lines
45-67).  `.error` means an exception escaped the body (only a JSON
decode error can: `aiohttp.ClientError` is caught by line 65 and turned
into the return value `(None, None, None)`, and a non-200 primary
response returns `(None, None, None)` at line 49 without raising). -/
def fetch_attempt (e : FetchAttemptEnv) : Except Unit (Option (String × ℚ × String)) :=
  match e.primary with
  | .clientError => .ok none
  | .badJson => .error ()
  | .http code body =>
    if code ≠ 200 then .ok none
    else
      let sp : String × ℚ :=
        match body with
        | [] => ("not paid", 0)
        | r :: _ => (r.status, r.paymentTimestamp)
      match e.secondary with
      | .clientError => .ok none
      | .badJson => .error ()
      | .http code2 syms =>
        let symbol :=
          if code2 = 200 then
            match syms with
            | [] => "Unknown"
            | o :: _ => o.getD "Unknown"
          else "Unknown"
        .ok (some (sp.1, sp.2, symbol))

/-- The tenacity `retry` wrapper with `stop_after_attempt(n)`: run the
body; a normal return ends the call; a raised exception is retried on
the next attempt's environment until `n` attempts have been used, after
which it propagates. -/
def tenacity_run (f : FetchAttemptEnv → Except Unit (Option (String × ℚ × String))) :
    Nat → List FetchAttemptEnv → Except Unit (Option (String × ℚ × String))
  | _, [] => .error ()
  | 0, _ => .error ()
  | Nat.succ n, e :: rest =>
    match f e with
    | .ok r => .ok r
    | .error u => if n = 0 then .error u else tenacity_run f n rest

/-- The deployed `fetch_token_info`: the body under
`@retry(stop=stop_after_attempt(3), wait=wait_fixed(2))`, consuming one
attempt environment per (re-)invocation. -/
def fetch_token_info (envs : List FetchAttemptEnv) :
    Except Unit (Option (String × ℚ × String)) :=
  tenacity_run fetch_attempt 3 envs

/-! ## Command handlers and the polling tick

Each handler takes the status oracle `fetch` (the result of
`fetch_token_info` for a given address this tick), the header oracle
`hdr` (`fetch_token_header`), the current wall clock `now`
(`time.time()`), and the chat's `Storage`; it returns the new storage
and the messages delivered, plus booleans for job-queue effects where a
claim needs them. -/

/-- The `/track` command handler (src/main.py lines 102-190).  The third component records
whether a new repeating job was started (lines 179-190); `jobExists`
says whether `tracking_<chat>` was already scheduled. -/
def track_command (fetch : String → Option (String × ℚ × String))
    (hdr : String → Option String) (now : ℚ) (args : List String)
    (jobExists : Bool) (st : Storage) : Storage × List Sent × Bool :=
  match args with
  | [] => (st, [Sent.text "Please provide a token address after /track"], false)
  | arg :: _ =>
    let addr := pyStrip arg
    if ¬ isValidSolanaAddress addr then
      (st, [Sent.text "Invalid Solana address format"], false)
    else
      match fetch addr with
      | none =>
        (st, [Sent.text "Failed to fetch token data. Check the address or try again later."], false)
      | some (status, pts, sym) =>
        if status = "" then
          (st, [Sent.text "Failed to fetch token data. Check the address or try again later."], false)
        else
          let symbol := if sym = "" then "Unknown" else sym
          if pyLower status = "approved" ∨ pyLower status = "updated" then
            let ta := time_since now pts
            let message := symbol ++ " (" ++ addr ++ ")\nStatus: " ++ status ++
              (if ta ≠ "Unknown" then "\nPayment Time: " ++ ta ++ " ago" else "")
            let reply :=
              match hdr addr with
              | some h => if pyLower status = "approved" then Sent.photo h message else Sent.text message
              | none => Sent.text message
            (st, [reply], false)
          else
            let tracked := st.tracked_tokens.getD []
            let st1 : Storage := { st with tracked_tokens := some tracked }
            if addr ∈ keysOf tracked then
              (st1, [Sent.text ("Already tracking " ++ addr)], false)
            else if MAX_TRACKING_SLOTS ≤ tracked.length then
              ({ st1 with pending_token := some addr },
               [Sent.text "Tracking slots full! Which one to replace?"], false)
            else
              let tracked2 := tracked ++ [(addr, ⟨symbol, status, now⟩)]
              let message := "Now tracking " ++ symbol ++ " (" ++ addr ++
                ")\nInitial Status: " ++ status ++ "\nUpdates every 10 seconds."
              let reply :=
                match hdr addr with
                | some h => if pyLower status = "processing" then Sent.photo h message else Sent.text message
                | none => Sent.text message
              ({ st1 with tracked_tokens := some tracked2 }, [reply], !jobExists)

/-- The `try` block of `handle_replace_callback` (src/main.py lines
205-210): `slot = int(query.data.split('_')[1]) - 1` followed by
`old_address = list(tracked_tokens.keys())[slot]`; any
`IndexError`/`ValueError` gives `none`.  Returns the 0-based `slot`
(which may be negative: Python list indexing counts from the end) and
the resolved address. -/
def resolveSlot (data : String) (keys : List String) : Option (Int × String) :=
  match (pySplitUnderscore data)[1]? with
  | none => none
  | some selStr =>
    match pyInt selStr with
    | none => none
    | some n =>
      match pyIndex keys (n - 1) with
      | none => none
      | some old => some (n - 1, old)

/-- The `replace_<slot>` callback (src/main.py lines 193-242).  `data`
is `query.data`.  The tracked dict is read with
`storage.get('tracked_tokens', {})`: when the key is absent the handler
mutates a fresh dict that is never written back, hence the
`Option.map` write-back. -/
def handle_replace_callback (fetch : String → Option (String × ℚ × String))
    (hdr : String → Option String) (now : ℚ) (data : String) (st : Storage) :
    Storage × List Sent :=
  let tracked := st.tracked_tokens.getD []
  match st.pending_token with
  | none => (st, [Sent.edit "No pending token to track"])
  | some pending =>
    match resolveSlot data (keysOf tracked) with
    | none => (st, [Sent.edit "Invalid slot selection"])
    | some (slot, oldAddr) =>
      let tracked1 := tracked.filter (fun q => q.1 != oldAddr)
      let writeBack := fun (l : List (String × TokenInfo)) =>
        st.tracked_tokens.map (fun _ => l)
      match fetch pending with
      | none =>
        ({ st with tracked_tokens := writeBack tracked1 },
         [Sent.edit "Failed to fetch token data for replacement"])
      | some (cst, pts, sym) =>
        if cst = "" then
          ({ st with tracked_tokens := writeBack tracked1 },
           [Sent.edit "Failed to fetch token data for replacement"])
        else
          let symbol := if sym = "" then "Unknown" else sym
          let ta := time_since now pts
          let message := "Replaced slot " ++ toString (slot + 1) ++ " with " ++ symbol ++
            " (" ++ pending ++ ")\nStatus: " ++ cst ++
            (if ta ≠ "Unknown" then "\nPayment Time: " ++ ta ++ " ago" else "")
          if pyLower cst = "approved" ∨ pyLower cst = "updated" then
            ({ st with tracked_tokens := writeBack tracked1, pending_token := none },
             [Sent.edit message])
          else
            let tracked2 := dictInsert tracked1 pending ⟨symbol, cst, now⟩
            if pyLower cst = "processing" then
              match hdr pending with
              | some h =>
                ({ st with tracked_tokens := writeBack tracked2 },
                 [Sent.photo h message,
                  Sent.edit ("Slot " ++ toString (slot + 1) ++ " replaced successfully")])
              | none =>
                ({ st with tracked_tokens := writeBack tracked2, pending_token := none },
                 [Sent.edit message])
            else
              ({ st with tracked_tokens := writeBack tracked2, pending_token := none },
               [Sent.edit message])

/-- The body of the `for token_address, token_info in list(...)` loop of
`check_for_updates` (src/main.py lines 256-306) for one item: the item's
new stored value (`none` = deleted from the dict) and the messages sent
for it. -/
def processItem (fetch : String → Option (String × ℚ × String))
    (hdr : String → Option String) (now : ℚ) (addr : String) (info : TokenInfo) :
    Option TokenInfo × List Sent :=
  match fetch addr with
  | none => (some info, [])
  | some (cst, pts, sym) =>
    if cst = "" then (some info, [])
    else
      let symbol := if info.symbol ≠ "" then info.symbol
                    else if sym = "" then "Unknown" else sym
      let ta := time_since now pts
      let message := symbol ++ " (" ++ addr ++ ")\nStatus: " ++ cst ++
        (if ta ≠ "Unknown" then "\nPayment Time: " ++ ta ++ " ago" else "")
      if cst ≠ info.last_status then
        let header := hdr addr
        let first :=
          if pyLower cst = "processing" ∨ pyLower cst = "approved" then
            match header with
            | some h => Sent.photo h message
            | none => Sent.text message
          else Sent.text message
        if pyLower cst = "approved" ∨ pyLower cst = "updated" then
          let finalMsg := "Stopped tracking " ++ symbol ++ " (" ++ addr ++ ")"
          let second :=
            match header with
            | some h => if pyLower cst = "approved" then Sent.photo h finalMsg else Sent.text finalMsg
            | none => Sent.text finalMsg
          (none, [first, second])
        else
          (some ⟨symbol, cst, now⟩, [first])
      else if 1800 < now - info.last_change then
        (none, [Sent.text ("Stopped tracking " ++ symbol ++ " (" ++ addr ++
          ") - no changes for 30 minutes")])
      else (some info, [])

/-- One polling tick, `check_for_updates` (src/main.py lines 245-310).
The loop iterates a snapshot of the dict and only ever reassigns or
deletes the key it is visiting, so the final dict is the original list
with every entry mapped through `processItem` (reassignment keeps the
position, deletion removes the entry); line 308 then truncates to the
first `MAX_TRACKING_SLOTS` entries.  The boolean is whether the job
scheduled its own removal. -/
def check_for_updates (fetch : String → Option (String × ℚ × String))
    (hdr : String → Option String) (now : ℚ) (st : Storage) :
    Storage × List Sent × Bool :=
  match st.tracked_tokens with
  | none => (st, [], true)
  | some ts =>
    if ts.isEmpty then (st, [], true)
    else
      let newTracked :=
        (ts.filterMap (fun p => (processItem fetch hdr now p.1 p.2).1.map
          (fun i => (p.1, i)))).take MAX_TRACKING_SLOTS
      let sents := ts.foldr (fun p acc => (processItem fetch hdr now p.1 p.2).2 ++ acc) []
      ({ st with tracked_tokens := some newTracked }, sents, newTracked.isEmpty)

/-- The `/stop` command handler (src/main.py lines 327-338): delete the `tracked_tokens`
key when present and cancel the chat's polling job; the
`pending_token` key is not touched. -/
def stop_tracking (st : Storage) : Storage × List Sent :=
  match st.tracked_tokens with
  | some ts =>
    ({ st with tracked_tokens := none },
     [Sent.text ("Stopped tracking " ++ toString ts.length ++ " tokens")])
  | none => (st, [Sent.text "No active tracking"])

/-! ## Helper lemmas -/

lemma pyIndex_mem {α : Type} {l : List α} {i : Int} {a : α}
    (h : pyIndex l i = some a) : a ∈ l := by
  unfold pyIndex at h
  split at h
  · exact List.getElem?_mem h
  · split at h
    · exact List.getElem?_mem h
    · exact absurd h (by simp)

lemma resolveSlot_mem {data : String} {keys : List String} {slot : Int} {old : String}
    (h : resolveSlot data keys = some (slot, old)) : old ∈ keys := by
  unfold resolveSlot at h
  split at h
  · exact absurd h (by simp)
  · split at h
    · exact absurd h (by simp)
    · split at h
      · exact absurd h (by simp)
      · rename_i o ho
        simp only [Option.some.injEq, Prod.mk.injEq] at h
        rcases h with ⟨h4, h5⟩
        subst h5
        exact pyIndex_mem ho

lemma length_filter_key_lt (l : List (String × TokenInfo)) (old : String)
    (h : old ∈ keysOf l) :
    (l.filter (fun q => q.1 != old)).length < l.length := by
  rcases List.mem_map.mp h with ⟨p, hp, hpk⟩
  have hle := List.length_filter_le (fun q => q.1 != old) l
  have hne : (l.filter (fun q => q.1 != old)).length ≠ l.length := by
    intro he
    have hall := List.filter_length_eq_length.mp he p hp
    simp [hpk] at hall
  omega

lemma dictInsert_length (ts : List (String × TokenInfo)) (k : String) (v : TokenInfo) :
    (dictInsert ts k v).length ≤ ts.length + 1 := by
  unfold dictInsert
  split <;> simp

lemma dictInsert_of_not_mem {ts : List (String × TokenInfo)} {k : String} (v : TokenInfo)
    (h : k ∉ keysOf ts) : dictInsert ts k v = ts ++ [(k, v)] := by
  unfold dictInsert
  rw [if_neg]
  simp only [List.any_eq_true, beq_iff_eq, not_exists, not_and]
  intro p hp hpk
  exact h (List.mem_map.mpr ⟨p, hp, hpk⟩)

lemma writeBack_len_le (st : Storage) (L : List (String × TokenInfo)) (n : Nat)
    (hL : L.length ≤ n) :
    ((st.tracked_tokens.map (fun _ => L)).getD []).length ≤ n := by
  cases st.tracked_tokens
  · simp
  · simpa using hL

/-! ## C1: the tracked set never exceeds MAX_TRACKING_SLOTS -/

/-- C1: starting from a chat state with at most `MAX_TRACKING_SLOTS`
tracked items, a `/track` registration keeps the bound (the handler
refuses to insert when the set is full); every `check_for_updates`
tick leaves at most `MAX_TRACKING_SLOTS` items unconditionally (the
persisted set is truncated to its first `MAX_TRACKING_SLOTS` entries);
and slot replacement removes one item before inserting at most one,
preserving the bound. -/
theorem c1_tracking_bound :
    (∀ fetch hdr now args jobExists st, lenTracked st ≤ MAX_TRACKING_SLOTS →
      lenTracked (track_command fetch hdr now args jobExists st).1 ≤ MAX_TRACKING_SLOTS) ∧
    (∀ fetch hdr now st,
      lenTracked (check_for_updates fetch hdr now st).1 ≤ MAX_TRACKING_SLOTS) ∧
    (∀ fetch hdr now data st, lenTracked st ≤ MAX_TRACKING_SLOTS →
      lenTracked (handle_replace_callback fetch hdr now data st).1 ≤ MAX_TRACKING_SLOTS) := by
  refine ⟨?_, ?_, ?_⟩
  · intro fetch hdr now args jobExists st h
    cases args with
    | nil => exact h
    | cons a rest =>
      simp only [track_command, lenTracked, MAX_TRACKING_SLOTS] at h ⊢
      repeat' split
      all_goals first
        | exact h
        | (simp_all <;> omega)
  · intro fetch hdr now st
    simp only [check_for_updates, lenTracked, MAX_TRACKING_SLOTS]
    repeat' split
    all_goals first
      | (simp_all <;> omega)
      | exact List.length_take_le _ _
  · intro fetch hdr now data st h
    simp only [handle_replace_callback, lenTracked, MAX_TRACKING_SLOTS] at h ⊢
    repeat' split
    all_goals first
      | exact h
      | (refine writeBack_len_le st _ _ ?_
         have hlt := length_filter_key_lt (st.tracked_tokens.getD []) _
           (resolveSlot_mem (by assumption))
         first
           | omega
           | (refine le_trans (dictInsert_length _ _ _) ?_
              omega))

/-- Witness for C1 at concrete inputs: a full chat (2 items) stays at 2
after a further registration, a tick, and a replacement. -/
theorem c1_tracking_bound_witness :
    lenTracked (track_command (fun _ => some ("processing", 0, "S")) (fun _ => none) 100
      ["CCCCCCCCCCCCCCCCCCCCCCCCCCCCCCCC"] false
      ⟨some [("A", ⟨"SA", "processing", 0⟩), ("B", ⟨"SB", "pending", 0⟩)], none⟩).1
      ≤ MAX_TRACKING_SLOTS ∧
    lenTracked (check_for_updates (fun _ => some ("processing", 0, "S")) (fun _ => none) 100
      ⟨some [("A", ⟨"SA", "processing", 0⟩), ("B", ⟨"SB", "pending", 0⟩)], none⟩).1
      ≤ MAX_TRACKING_SLOTS ∧
    lenTracked (handle_replace_callback (fun _ => some ("pending", 0, "S")) (fun _ => none) 100
      "replace_1"
      ⟨some [("A", ⟨"SA", "processing", 0⟩), ("B", ⟨"SB", "pending", 0⟩)], some "C"⟩).1
      ≤ MAX_TRACKING_SLOTS :=
  ⟨c1_tracking_bound.1 _ _ 100 _ false _ (by decide),
   c1_tracking_bound.2.1 _ _ 100 _,
   c1_tracking_bound.2.2 _ _ 100 _ _ (by decide)⟩

/-! ## C3: no retry for transport errors or non-success responses -/

/-- C3 (code bug): `fetch_token_info` does NOT retry the two conditions
the retry wrapper was written for.  A transport error
(`aiohttp.ClientError`) on the first attempt is caught inside the
function body and turned into the return value `(None, None, None)`,
and a non-200 primary response returns `(None, None, None)` without
raising, so tenacity — which only retries raised exceptions — performs
no retry in either case, even when the remaining two attempts would
have succeeded (conjuncts 1-3).  The wrapper itself is live: an
exception that escapes the body (e.g. a JSON decode error, conjunct 4)
IS retried and the second attempt's result is returned. -/
theorem c3_fetch_no_retry :
    fetch_token_info
      [⟨.clientError, .http 200 [some "SYM"]⟩,
       ⟨.http 200 [⟨"processing", 5⟩], .http 200 [some "SYM"]⟩,
       ⟨.http 200 [⟨"processing", 5⟩], .http 200 [some "SYM"]⟩] = .ok none ∧
    fetch_token_info
      [⟨.http 500 [], .http 200 [some "SYM"]⟩,
       ⟨.http 200 [⟨"processing", 5⟩], .http 200 [some "SYM"]⟩,
       ⟨.http 200 [⟨"processing", 5⟩], .http 200 [some "SYM"]⟩] = .ok none ∧
    fetch_attempt ⟨.http 200 [⟨"processing", 5⟩], .http 200 [some "SYM"]⟩ =
      .ok (some ("processing", 5, "SYM")) ∧
    fetch_token_info
      [⟨.badJson, .http 200 [some "SYM"]⟩,
       ⟨.http 200 [⟨"processing", 5⟩], .http 200 [some "SYM"]⟩,
       ⟨.http 200 [⟨"processing", 5⟩], .http 200 [some "SYM"]⟩] =
      .ok (some ("processing", 5, "SYM")) := by
  refine ⟨rfl, rfl, rfl, rfl⟩

/-! ## C8: /stop and the pending-replacement field -/

/-- C8 counterexample: after `/stop` on a chat with a full tracked set
and a pending replacement, the pending-replacement field is NOT
cleared — `stop_tracking` deletes only the `tracked_tokens` key. -/
theorem c8_stop_pending_counterexample :
    (stop_tracking
      ⟨some [("A", ⟨"SA", "processing", 0⟩), ("B", ⟨"SB", "pending", 0⟩)],
       some "PENDING"⟩).1.pending_token = some "PENDING" := rfl

/-- C8 amended: `/stop` always leaves the chat with an empty tracked
set (the `tracked_tokens` key is deleted when present), but it does not
touch the pending-replacement field, which keeps whatever value it had. -/
theorem c8_stop_amended (st : Storage) :
    (stop_tracking st).1.tracked_tokens = none ∧
    (stop_tracking st).1.pending_token = st.pending_token := by
  cases h : st.tracked_tokens <;> simp [stop_tracking, h]

/-- Witness for C8 amended at a concrete state: the tracked set is
gone, the pending field survives. -/
theorem c8_stop_amended_witness :
    (stop_tracking ⟨some [("A", ⟨"SA", "processing", 0⟩)], some "P"⟩).1.tracked_tokens
      = none ∧
    (stop_tracking ⟨some [("A", ⟨"SA", "processing", 0⟩)], some "P"⟩).1.pending_token
      = some "P" :=
  c8_stop_amended ⟨some [("A", ⟨"SA", "processing", 0⟩)], some "P"⟩

/-! ## C2 counterexample: pending not cleared on processing + header -/

/-- C2 counterexample: a valid slot replacement whose pending address
fetches the non-terminal status "processing" while a header image is
available stores the new item but leaves `pending_token` set: the
`if header:` branch of `handle_replace_callback` returns before
`del storage['pending_token']` is reached. -/
theorem c2_replacement_pending_counterexample :
    ((handle_replace_callback (fun _ => some ("processing", 0, "NEWSYM"))
        (fun _ => some "http://img") 100 "replace_1"
        ⟨some [("OLDADDR", ⟨"OLDSYM", "processing", 0⟩)], some "NEWADDR"⟩).1.pending_token
      = some "NEWADDR") ∧
    ((handle_replace_callback (fun _ => some ("processing", 0, "NEWSYM"))
        (fun _ => some "http://img") 100 "replace_1"
        ⟨some [("OLDADDR", ⟨"OLDSYM", "processing", 0⟩)], some "NEWADDR"⟩).1.tracked_tokens
      = some [("NEWADDR", ⟨"NEWSYM", "processing", 100⟩)]) := by
  refine ⟨rfl, rfl⟩

/-! ## C4 counterexample: selector "0" is not rejected -/

/-- C4 counterexample: with one tracked item, the slot selector "0"
(callback data "replace_0") is NOT rejected as an invalid slot:
`int("0") - 1 = -1` indexes the key list from the end (Python negative
indexing), so the only tracked item is removed and replaced and the
reply is not "Invalid slot selection". -/
theorem c4_invalid_slot_counterexample :
    ((handle_replace_callback (fun _ => some ("pending", 0, "NEWSYM")) (fun _ => none) 100
        "replace_0"
        ⟨some [("ONLYADDR", ⟨"OSYM", "processing", 0⟩)], some "NEWADDR"⟩).1.tracked_tokens
      = some [("NEWADDR", ⟨"NEWSYM", "pending", 100⟩)]) ∧
    ((handle_replace_callback (fun _ => some ("pending", 0, "NEWSYM")) (fun _ => none) 100
        "replace_0"
        ⟨some [("ONLYADDR", ⟨"OSYM", "processing", 0⟩)], some "NEWADDR"⟩).2
      ≠ [Sent.edit "Invalid slot selection"]) := by
  refine ⟨rfl, by decide⟩

/-! ## Refresh-tick helper lemmas -/

lemma not_mem_refresh_keys (fetch : String → Option (String × ℚ × String))
    (hdr : String → Option String) (now : ℚ) (st : Storage)
    (ts : List (String × TokenInfo)) (addr : String)
    (hts : st.tracked_tokens = some ts)
    (hstep : ∀ i : TokenInfo, (addr, i) ∈ ts → (processItem fetch hdr now addr i).1 = none) :
    addr ∉ keysOf ((check_for_updates fetch hdr now st).1.tracked_tokens.getD []) := by
  simp only [check_for_updates, hts]
  by_cases hemp : ts.isEmpty
  · rw [if_pos hemp]
    intro hmem
    have hmem' : addr ∈ keysOf (st.tracked_tokens.getD []) := hmem
    rw [hts] at hmem'
    rw [List.isEmpty_iff.mp hemp] at hmem'
    simp [keysOf] at hmem'
  · rw [if_neg hemp]
    intro hmem
    have hmem' : addr ∈ keysOf ((ts.filterMap (fun p =>
        (processItem fetch hdr now p.1 p.2).1.map (fun i => (p.1, i)))).take
        MAX_TRACKING_SLOTS) := hmem
    rcases List.mem_map.mp hmem' with ⟨q, hq, hqk⟩
    have hq2 := List.mem_of_mem_take hq
    rcases List.mem_filterMap.mp hq2 with ⟨p, hp, hg⟩
    rcases Option.map_eq_some'.mp hg with ⟨i, hi, hqe⟩
    have hpaddr : p.1 = addr := by rw [← hqk, ← hqe]
    have hpe : p = (addr, p.2) := by
      rw [← hpaddr]
    have hnone := hstep p.2 (hpe ▸ hp)
    rw [hpaddr] at hi
    rw [hnone] at hi
    cases hi

lemma mem_refresh_of_step_some (fetch : String → Option (String × ℚ × String))
    (hdr : String → Option String) (now : ℚ) (st : Storage)
    (ts : List (String × TokenInfo)) (addr : String) (info : TokenInfo)
    (hts : st.tracked_tokens = some ts) (hlen : ts.length ≤ MAX_TRACKING_SLOTS)
    (hmem : (addr, info) ∈ ts)
    (hstep : (processItem fetch hdr now addr info).1 = some info) :
    (addr, info) ∈ (check_for_updates fetch hdr now st).1.tracked_tokens.getD [] := by
  simp only [check_for_updates, hts]
  have hemp : ts.isEmpty = false := by
    cases ts
    · cases hmem
    · rfl
  rw [if_neg (by simp [hemp])]
  show (addr, info) ∈ (ts.filterMap (fun p =>
      (processItem fetch hdr now p.1 p.2).1.map (fun i => (p.1, i)))).take
      MAX_TRACKING_SLOTS
  have hfm : (addr, info) ∈ ts.filterMap (fun p =>
      (processItem fetch hdr now p.1 p.2).1.map (fun i => (p.1, i))) :=
    List.mem_filterMap.mpr ⟨(addr, info), hmem, by simp [hstep]⟩
  rw [List.take_of_length_le (le_trans (List.length_filterMap_le _ _) hlen)]
  exact hfm

/-! ## C6: terminal status change removes the item with two notifications -/

/-- C6: when a tracked item's freshly fetched status differs from its
stored status and lower-cases to "approved" or "updated", the tick's
processing of the item deletes it from the dict and sends exactly two
messages — the status-change message, then the stopped-tracking
message (with the header photo attached exactly when one was fetched
and the status lower-cases to "approved") — and the item's address is
gone from the persisted set after the tick. -/
theorem c6_terminal_transition
    (fetch : String → Option (String × ℚ × String)) (hdr : String → Option String)
    (now : ℚ) (addr : String) (info : TokenInfo) (cst : String) (pts : ℚ) (sym : String)
    (hf : fetch addr = some (cst, pts, sym)) (hne : cst ≠ "")
    (hch : cst ≠ info.last_status)
    (hterm : pyLower cst = "approved" ∨ pyLower cst = "updated") :
    processItem fetch hdr now addr info =
      (none,
       [(if pyLower cst = "processing" ∨ pyLower cst = "approved" then
           match hdr addr with
           | some h => Sent.photo h
               ((if info.symbol ≠ "" then info.symbol
                 else if sym = "" then "Unknown" else sym) ++ " (" ++ addr ++
                ")\nStatus: " ++ cst ++
                (if time_since now pts ≠ "Unknown" then
                   "\nPayment Time: " ++ time_since now pts ++ " ago" else ""))
           | none => Sent.text
               ((if info.symbol ≠ "" then info.symbol
                 else if sym = "" then "Unknown" else sym) ++ " (" ++ addr ++
                ")\nStatus: " ++ cst ++
                (if time_since now pts ≠ "Unknown" then
                   "\nPayment Time: " ++ time_since now pts ++ " ago" else ""))
         else Sent.text
               ((if info.symbol ≠ "" then info.symbol
                 else if sym = "" then "Unknown" else sym) ++ " (" ++ addr ++
                ")\nStatus: " ++ cst ++
                (if time_since now pts ≠ "Unknown" then
                   "\nPayment Time: " ++ time_since now pts ++ " ago" else ""))),
        (match hdr addr with
         | some h =>
           if pyLower cst = "approved" then
             Sent.photo h ("Stopped tracking " ++
               (if info.symbol ≠ "" then info.symbol
                else if sym = "" then "Unknown" else sym) ++ " (" ++ addr ++ ")")
           else Sent.text ("Stopped tracking " ++
               (if info.symbol ≠ "" then info.symbol
                else if sym = "" then "Unknown" else sym) ++ " (" ++ addr ++ ")")
         | none => Sent.text ("Stopped tracking " ++
               (if info.symbol ≠ "" then info.symbol
                else if sym = "" then "Unknown" else sym) ++ " (" ++ addr ++ ")"))]) ∧
    (∀ st ts, st.tracked_tokens = some ts → (addr, info) ∈ ts →
      (keysOf ts).Nodup →
      addr ∉ keysOf ((check_for_updates fetch hdr now st).1.tracked_tokens.getD [])) := by
  have hstep : (processItem fetch hdr now addr info).1 = none ∧
      processItem fetch hdr now addr info = (none, (processItem fetch hdr now addr info).2) := by
    constructor
    · simp only [processItem, hf]
      rw [if_neg hne, if_pos hch, if_pos hterm]
    · simp only [processItem, hf]
      rw [if_neg hne, if_pos hch, if_pos hterm]
  constructor
  · simp only [processItem, hf]
    rw [if_neg hne, if_pos hch, if_pos hterm]
  · intro st ts hts hmem hnd
    apply not_mem_refresh_keys fetch hdr now st ts addr hts
    intro i hi
    have hnd2 : (ts.map Prod.fst).Nodup := hnd
    have heq : (addr, i) = (addr, info) :=
      List.inj_on_of_nodup_map hnd2 hi hmem rfl
    have h2 : i = info := by
      injection heq with h1 h2
    rw [h2]
    exact hstep.1

/-- Witness for C6: a "processing" → "approved" change in one tick sends
exactly the status-change message and the stopped-tracking message, and
the item disappears from the set. -/
theorem c6_terminal_transition_witness :
    processItem (fun _ => some ("approved", 0, "NEWSYM")) (fun _ => none) 100 "ADDR"
        ⟨"SYM", "processing", 0⟩ =
      (none, [Sent.text "SYM (ADDR)\nStatus: approved",
              Sent.text "Stopped tracking SYM (ADDR)"]) ∧
    "ADDR" ∉ keysOf ((check_for_updates (fun _ => some ("approved", 0, "NEWSYM"))
        (fun _ => none) 100
        ⟨some [("ADDR", ⟨"SYM", "processing", 0⟩)], none⟩).1.tracked_tokens.getD []) := by
  have h := c6_terminal_transition (fun _ => some ("approved", 0, "NEWSYM")) (fun _ => none)
    100 "ADDR" ⟨"SYM", "processing", 0⟩ "approved" 0 "NEWSYM" rfl (by decide) (by decide)
    (Or.inl rfl)
  exact ⟨h.1, h.2 ⟨some [("ADDR", ⟨"SYM", "processing", 0⟩)], none⟩ _ rfl (by decide) (by decide)⟩

/-! ## C7: idle timeout -/

/-- C7: when the fetched status equals the stored status, an item whose
last change lies more than 1800 time units in the past is deleted with
exactly one "no changes for 30 minutes" notification (and its address
is gone from the persisted set after the tick), while an item whose
last change is less than 1800 units old is left exactly as it was with
no notification (and stays in the persisted set when the set respects
the slot bound). -/
theorem c7_idle_timeout
    (fetch : String → Option (String × ℚ × String)) (hdr : String → Option String)
    (now : ℚ) (addr : String) (info : TokenInfo) (cst : String) (pts : ℚ) (sym : String)
    (hf : fetch addr = some (cst, pts, sym)) (hne : cst ≠ "")
    (hsame : cst = info.last_status) :
    (1800 < now - info.last_change →
      (processItem fetch hdr now addr info =
        (none, [Sent.text ("Stopped tracking " ++
          (if info.symbol ≠ "" then info.symbol else if sym = "" then "Unknown" else sym)
          ++ " (" ++ addr ++ ") - no changes for 30 minutes")]) ∧
       ∀ st ts, st.tracked_tokens = some ts → (addr, info) ∈ ts → (keysOf ts).Nodup →
         addr ∉ keysOf ((check_for_updates fetch hdr now st).1.tracked_tokens.getD []))) ∧
    (now - info.last_change < 1800 →
      (processItem fetch hdr now addr info = (some info, []) ∧
       ∀ st ts, st.tracked_tokens = some ts → ts.length ≤ MAX_TRACKING_SLOTS →
         (addr, info) ∈ ts →
         (addr, info) ∈ (check_for_updates fetch hdr now st).1.tracked_tokens.getD [])) := by
  constructor
  · intro ht
    have hstep : processItem fetch hdr now addr info =
        (none, [Sent.text ("Stopped tracking " ++
          (if info.symbol ≠ "" then info.symbol else if sym = "" then "Unknown" else sym)
          ++ " (" ++ addr ++ ") - no changes for 30 minutes")]) := by
      simp only [processItem, hf]
      rw [if_neg hne, if_neg (by simp [hsame]), if_pos ht]
    refine ⟨hstep, ?_⟩
    intro st ts hts hmem hnd
    apply not_mem_refresh_keys fetch hdr now st ts addr hts
    intro i hi
    have hnd2 : (ts.map Prod.fst).Nodup := hnd
    have heq : (addr, i) = (addr, info) := List.inj_on_of_nodup_map hnd2 hi hmem rfl
    have h2 : i = info := by injection heq with ha hb
    rw [h2, hstep]
  · intro ht
    have hstep : processItem fetch hdr now addr info = (some info, []) := by
      simp only [processItem, hf]
      rw [if_neg hne, if_neg (by simp [hsame]), if_neg (not_lt.mpr (le_of_lt ht))]
    refine ⟨hstep, ?_⟩
    intro st ts hts hlen hmem
    exact mem_refresh_of_step_some fetch hdr now st ts addr info hts hlen hmem (by rw [hstep])

/-- Witness for C7: with stored status "processing" re-fetched as
"processing", an item idle for 2000 units is dropped with exactly one
notification; an item idle for 100 units is kept unchanged with none
and is still in the set after the tick. -/
theorem c7_idle_timeout_witness :
    processItem (fun _ => some ("processing", 0, "S")) (fun _ => none) 2000 "ADDR"
        ⟨"SYM", "processing", 0⟩ =
      (none, [Sent.text "Stopped tracking SYM (ADDR) - no changes for 30 minutes"]) ∧
    processItem (fun _ => some ("processing", 0, "S")) (fun _ => none) 100 "ADDR"
        ⟨"SYM", "processing", 0⟩ = (some ⟨"SYM", "processing", 0⟩, []) ∧
    ("ADDR", (⟨"SYM", "processing", 0⟩ : TokenInfo)) ∈
      ((check_for_updates (fun _ => some ("processing", 0, "S")) (fun _ => none) 100
        ⟨some [("ADDR", ⟨"SYM", "processing", 0⟩)], none⟩).1.tracked_tokens.getD []) := by
  refine ⟨((c7_idle_timeout (fun _ => some ("processing", 0, "S")) (fun _ => none) 2000 "ADDR"
      ⟨"SYM", "processing", 0⟩ "processing" 0 "S" rfl (by decide) rfl).1 (by norm_num)).1,
    ((c7_idle_timeout (fun _ => some ("processing", 0, "S")) (fun _ => none) 100 "ADDR"
      ⟨"SYM", "processing", 0⟩ "processing" 0 "S" rfl (by decide) rfl).2 (by norm_num)).1,
    ((c7_idle_timeout (fun _ => some ("processing", 0, "S")) (fun _ => none) 100 "ADDR"
      ⟨"SYM", "processing", 0⟩ "processing" 0 "S" rfl (by decide) rfl).2 (by norm_num)).2
      ⟨some [("ADDR", ⟨"SYM", "processing", 0⟩)], none⟩ _ rfl (by decide) (by decide)⟩

/-! ## C5: destructive slot removal on replacement fetch failure -/

lemma length_filter_key_add_one (ts : List (String × TokenInfo)) (old : String)
    (hnd : (keysOf ts).Nodup) (hm : old ∈ keysOf ts) :
    (ts.filter (fun q => q.1 != old)).length + 1 = ts.length := by
  induction ts with
  | nil => cases hm
  | cons hd tl ih =>
    simp only [keysOf, List.map_cons, List.nodup_cons] at hnd
    rcases hnd with ⟨hnotin, hndtl⟩
    by_cases he : hd.1 = old
    · rw [List.filter_cons_of_neg (by simp [he])]
      have hall : tl.filter (fun q => q.1 != old) = tl := by
        rw [List.filter_eq_self]
        intro a ha
        simp only [bne_iff_ne, ne_eq]
        intro hax
        apply hnotin
        rw [he]
        exact List.mem_map.mpr ⟨a, ha, hax⟩
      rw [hall, List.length_cons]
    · have hm2 : old ∈ keysOf tl := by
        have hm3 : old ∈ hd.1 :: keysOf tl := hm
        rcases List.mem_cons.mp hm3 with h1 | h1
        · exact absurd h1.symm he
        · exact h1
      rw [List.filter_cons_of_pos (by simp [he])]
      simp only [List.length_cons]
      have := ih hndtl hm2
      omega

lemma not_mem_keys_filter (ts : List (String × TokenInfo)) (old : String) :
    old ∉ keysOf (ts.filter (fun q => q.1 != old)) := by
  intro h
  rcases List.mem_map.mp h with ⟨q, hq, hqk⟩
  rcases List.mem_filter.mp hq with ⟨_, hq2⟩
  simp [hqk] at hq2

/-- C5: when the replacement callback resolves a valid slot and the
fetch for the pending address then fails, the reply is the
fetch-failure message but the item at that slot has already been
deleted and is not restored: the stored set is the old set minus that
item, one entry shorter, and the old address is gone. -/
theorem c5_destructive_replacement
    (fetch : String → Option (String × ℚ × String)) (hdr : String → Option String)
    (now : ℚ) (data : String) (st : Storage) (p : String)
    (ts : List (String × TokenInfo)) (slot : Int) (old : String)
    (hts : st.tracked_tokens = some ts)
    (hnd : (keysOf ts).Nodup)
    (hp : st.pending_token = some p)
    (hres : resolveSlot data (keysOf ts) = some (slot, old))
    (hf : fetch p = none) :
    (handle_replace_callback fetch hdr now data st).1.tracked_tokens
      = some (ts.filter (fun q => q.1 != old)) ∧
    (ts.filter (fun q => q.1 != old)).length + 1 = ts.length ∧
    old ∉ keysOf (ts.filter (fun q => q.1 != old)) ∧
    (handle_replace_callback fetch hdr now data st).2 =
      [Sent.edit "Failed to fetch token data for replacement"] := by
  have heval : handle_replace_callback fetch hdr now data st =
      ({ st with tracked_tokens := some (ts.filter (fun q => q.1 != old)) },
       [Sent.edit "Failed to fetch token data for replacement"]) := by
    simp only [handle_replace_callback, hts, hp, Option.getD_some, hres, hf,
      Option.map_some']
  refine ⟨by rw [heval], ?_, not_mem_keys_filter ts old, by rw [heval]⟩
  exact length_filter_key_add_one ts old hnd (resolveSlot_mem hres)

/-- Witness for C5: two tracked items, slot selector "1", fetch failure
for the pending address: the first item is permanently gone and the set
shrinks from 2 to 1. -/
theorem c5_destructive_replacement_witness :
    (handle_replace_callback (fun _ => none) (fun _ => none) 100 "replace_1"
      ⟨some [("A", ⟨"SA", "processing", 0⟩), ("B", ⟨"SB", "pending", 0⟩)],
       some "P"⟩).1.tracked_tokens
      = some [("B", ⟨"SB", "pending", 0⟩)] ∧
    (handle_replace_callback (fun _ => none) (fun _ => none) 100 "replace_1"
      ⟨some [("A", ⟨"SA", "processing", 0⟩), ("B", ⟨"SB", "pending", 0⟩)],
       some "P"⟩).2 = [Sent.edit "Failed to fetch token data for replacement"] := by
  have h := c5_destructive_replacement (fun _ => none) (fun _ => none) 100 "replace_1"
    ⟨some [("A", ⟨"SA", "processing", 0⟩), ("B", ⟨"SB", "pending", 0⟩)], some "P"⟩ "P"
    [("A", ⟨"SA", "processing", 0⟩), ("B", ⟨"SB", "pending", 0⟩)] 0 "A"
    rfl (by decide) rfl (by decide) rfl
  exact ⟨h.1, h.2.2.2⟩

/-! ## C2 amended: replacement insertion and pending clearing -/

/-- C2 amended: when the replacement callback resolves a valid slot and
the freshly fetched status of the pending address is non-terminal
(case-insensitively neither "approved" nor "updated"), the new item is
inserted at the end of the tracked set; the pending-replacement field
is cleared UNLESS the status lower-cases to "processing" and a header
image is available, in which case the handler returns from the photo
branch before `del storage['pending_token']` and the pending field is
left set. -/
theorem c2_replacement_amended
    (fetch : String → Option (String × ℚ × String)) (hdr : String → Option String)
    (now : ℚ) (data : String) (st : Storage) (p : String)
    (ts : List (String × TokenInfo)) (slot : Int) (old : String)
    (cst : String) (pts : ℚ) (sym : String)
    (hts : st.tracked_tokens = some ts)
    (hp : st.pending_token = some p)
    (hres : resolveSlot data (keysOf ts) = some (slot, old))
    (hf : fetch p = some (cst, pts, sym)) (hne : cst ≠ "")
    (hnonterm : ¬ (pyLower cst = "approved" ∨ pyLower cst = "updated"))
    (hnm : p ∉ keysOf (ts.filter (fun q => q.1 != old))) :
    (handle_replace_callback fetch hdr now data st).1.tracked_tokens
      = some (ts.filter (fun q => q.1 != old) ++
          [(p, ⟨if sym = "" then "Unknown" else sym, cst, now⟩)]) ∧
    (handle_replace_callback fetch hdr now data st).1.pending_token
      = (if pyLower cst = "processing" ∧ (hdr p).isSome then some p else none) := by
  have hins := dictInsert_of_not_mem
    (⟨if sym = "" then "Unknown" else sym, cst, now⟩ : TokenInfo) hnm
  by_cases hproc : pyLower cst = "processing"
  · cases hh : hdr p with
    | some h =>
      have heval : handle_replace_callback fetch hdr now data st =
          ({ st with tracked_tokens := some (ts.filter (fun q => q.1 != old) ++
              [(p, ⟨if sym = "" then "Unknown" else sym, cst, now⟩)]) },
           [Sent.photo h ("Replaced slot " ++ toString (slot + 1) ++ " with " ++
              (if sym = "" then "Unknown" else sym) ++ " (" ++ p ++ ")\nStatus: " ++ cst ++
              (if time_since now pts ≠ "Unknown" then
                "\nPayment Time: " ++ time_since now pts ++ " ago" else "")),
            Sent.edit ("Slot " ++ toString (slot + 1) ++ " replaced successfully")]) := by
        simp only [handle_replace_callback, hts, hp, Option.getD_some, hres, hf,
          Option.map_some']
        rw [if_neg hne, if_neg hnonterm, hins, if_pos hproc, hh]
      rw [heval]
      refine ⟨rfl, ?_⟩
      simp [hproc, hp]
    | none =>
      have heval : (handle_replace_callback fetch hdr now data st).1 =
          { st with
            tracked_tokens := some (ts.filter (fun q => q.1 != old) ++
              [(p, ⟨if sym = "" then "Unknown" else sym, cst, now⟩)]),
            pending_token := none } := by
        simp only [handle_replace_callback, hts, hp, Option.getD_some, hres, hf,
          Option.map_some']
        rw [if_neg hne, if_neg hnonterm, hins, if_pos hproc, hh]
      rw [heval]
      refine ⟨rfl, ?_⟩
      simp [hproc]
  · have heval : (handle_replace_callback fetch hdr now data st).1 =
        { st with
          tracked_tokens := some (ts.filter (fun q => q.1 != old) ++
            [(p, ⟨if sym = "" then "Unknown" else sym, cst, now⟩)]),
          pending_token := none } := by
      simp only [handle_replace_callback, hts, hp, Option.getD_some, hres, hf,
        Option.map_some']
      rw [if_neg hne, if_neg hnonterm, hins, if_neg hproc]
    rw [heval]
    refine ⟨rfl, ?_⟩
    simp [hproc]

/-- Witness for C2 amended: non-terminal, non-"processing" status
"pending" with no header: the new item lands at the end and the
pending-replacement field is cleared. -/
theorem c2_replacement_amended_witness :
    (handle_replace_callback (fun _ => some ("pending", 0, "NEWSYM")) (fun _ => none) 100
      "replace_1" ⟨some [("A", ⟨"SA", "processing", 0⟩)], some "P"⟩).1.tracked_tokens
      = some [("P", ⟨"NEWSYM", "pending", 100⟩)] ∧
    (handle_replace_callback (fun _ => some ("pending", 0, "NEWSYM")) (fun _ => none) 100
      "replace_1" ⟨some [("A", ⟨"SA", "processing", 0⟩)], some "P"⟩).1.pending_token
      = none := by
  have h := c2_replacement_amended (fun _ => some ("pending", 0, "NEWSYM")) (fun _ => none)
    100 "replace_1" ⟨some [("A", ⟨"SA", "processing", 0⟩)], some "P"⟩ "P"
    [("A", ⟨"SA", "processing", 0⟩)] 0 "A" "pending" 0 "NEWSYM"
    rfl rfl (by decide) rfl (by decide) (by decide) (by decide)
  exact ⟨h.1, h.2⟩

/-! ## C4 amended: which selectors are rejected as invalid -/

lemma pyIndex_none_of_out_of_range {α : Type} (l : List α) (i : Int)
    (h : (l.length : Int) ≤ i ∨ i < -(l.length : Int)) : pyIndex l i = none := by
  unfold pyIndex
  rcases h with h | h
  · have h0 : 0 ≤ i := le_trans (Int.natCast_nonneg l.length) h
    rw [if_pos h0]
    apply List.getElem?_eq_none
    omega
  · have h0 : ¬ (0 ≤ i) := by omega
    have h1 : ¬ (0 ≤ (l.length : Int) + i) := by omega
    rw [if_neg h0, if_neg h1]

/-- C4 amended: a slot selector that is malformed (no second
"_"-separated field, or not an integer literal) or whose value `n` puts
`n - 1` outside the Python index range `[-count, count)` of the key
list yields the "Invalid slot selection" reply and leaves the chat
state — tracked set and pending-replacement field — completely
unchanged.  (Selectors with `1 - count ≤ n ≤ 0`, such as "0", are NOT
rejected: `n - 1` is a valid negative Python index and the replacement
proceeds on an item counted from the end, as the counterexample
shows.) -/
theorem c4_invalid_slot_amended
    (fetch : String → Option (String × ℚ × String)) (hdr : String → Option String)
    (now : ℚ) (data : String) (st : Storage) (p : String)
    (hp : st.pending_token = some p)
    (hbad : (pySplitUnderscore data)[1]? = none ∨
      (∃ s, (pySplitUnderscore data)[1]? = some s ∧ pyInt s = none) ∨
      (∃ s n, (pySplitUnderscore data)[1]? = some s ∧ pyInt s = some n ∧
        ((lenTracked st : Int) ≤ n - 1 ∨ n - 1 < -(lenTracked st : Int)))) :
    handle_replace_callback fetch hdr now data st
      = (st, [Sent.edit "Invalid slot selection"]) := by
  have hnone : resolveSlot data (keysOf (st.tracked_tokens.getD [])) = none := by
    unfold resolveSlot
    rcases hbad with h1 | ⟨s, h1, h2⟩ | ⟨s, n, h1, h2, h3⟩
    · simp only [h1]
    · simp only [h1, h2]
    · have hlen : ((keysOf (st.tracked_tokens.getD [])).length : Int)
          = (lenTracked st : Int) := by
        simp [keysOf, lenTracked]
      simp only [h1, h2,
        pyIndex_none_of_out_of_range (keysOf (st.tracked_tokens.getD [])) (n - 1)
          (by rw [hlen]; exact h3)]
  simp only [handle_replace_callback, hp, hnone]

/-- Witness for C4 amended: selector "99" with a single tracked item is
rejected and the state is untouched. -/
theorem c4_invalid_slot_amended_witness :
    handle_replace_callback (fun _ => some ("pending", 0, "S")) (fun _ => none) 100
      "replace_99" ⟨some [("A", ⟨"SA", "processing", 0⟩)], some "P"⟩
      = (⟨some [("A", ⟨"SA", "processing", 0⟩)], some "P"⟩,
         [Sent.edit "Invalid slot selection"]) :=
  c4_invalid_slot_amended (fun _ => some ("pending", 0, "S")) (fun _ => none) 100
    "replace_99" ⟨some [("A", ⟨"SA", "processing", 0⟩)], some "P"⟩ "P" rfl
    (Or.inr (Or.inr ⟨"99", 99, rfl, rfl, Or.inl (by decide)⟩))

/-! ## C9: the relative-time formatter -/

/-- C9: `time_since` agrees everywhere with the specification's
description (`timeSinceClaim`): "Unknown" for non-positive input,
"Not yet paid" for a timestamp strictly in the future, otherwise the
first non-zero bucket among days, hours (mod 24) and minutes (mod 60),
and whole seconds when all buckets are zero; in particular an input
90000 milliseconds before `now` yields "1 minutes". -/
theorem c9_time_since_claim :
    (∀ now timestamp : ℚ, time_since now timestamp = timeSinceClaim now timestamp) ∧
    (∀ now : ℚ, 90 < now → time_since now (1000 * now - 90000) = "1 minutes") := by
  constructor
  · intro now ts
    simp only [time_since, timeSinceClaim]
    by_cases h1 : ts ≤ 0
    · rw [if_pos h1, if_pos (not_lt.mpr h1)]
    · have h12 : 0 < ts := not_le.mp h1
      rw [if_neg h1, if_neg (not_not_intro h12)]
      by_cases h2 : now - ts / 1000 < 0
      · rw [if_pos h2, if_pos (by linarith)]
      · have h22 : ¬ now < ts / 1000 := by
          intro hc
          exact h2 (by linarith)
        rw [if_neg h2, if_neg h22]
        have hd : (0:ℚ) ≤ now - ts / 1000 := le_of_not_lt h2
        have hdays : (0:Int) ≤ ⌊(now - ts / 1000) / 86400⌋ :=
          Int.floor_nonneg.mpr (div_nonneg hd (by norm_num))
        have hhours : (0:Int) ≤ ⌊(now - ts / 1000) / 3600⌋ % 24 :=
          Int.emod_nonneg _ (by norm_num)
        have hmins : (0:Int) ≤ ⌊(now - ts / 1000) / 60⌋ % 60 :=
          Int.emod_nonneg _ (by norm_num)
        by_cases hD : 1 ≤ ⌊(now - ts / 1000) / 86400⌋
        · rw [if_pos hD, if_pos (show ⌊(now - ts / 1000) / 86400⌋ ≠ 0 by omega)]
        · rw [if_neg hD, if_neg (show ¬ ⌊(now - ts / 1000) / 86400⌋ ≠ 0 by omega)]
          by_cases hH : 1 ≤ ⌊(now - ts / 1000) / 3600⌋ % 24
          · rw [if_pos hH, if_pos (show ⌊(now - ts / 1000) / 3600⌋ % 24 ≠ 0 by omega)]
          · rw [if_neg hH, if_neg (show ¬ ⌊(now - ts / 1000) / 3600⌋ % 24 ≠ 0 by omega)]
            by_cases hM : 1 ≤ ⌊(now - ts / 1000) / 60⌋ % 60
            · rw [if_pos hM, if_pos (show ⌊(now - ts / 1000) / 60⌋ % 60 ≠ 0 by omega)]
            · rw [if_neg hM, if_neg (show ¬ ⌊(now - ts / 1000) / 60⌋ % 60 ≠ 0 by omega)]
  · intro now hnow
    have hts : ¬ (1000 * now - 90000 ≤ 0) := by
      intro hc
      linarith
    simp only [time_since]
    rw [if_neg hts]
    have hdiff : now - (1000 * now - 90000) / 1000 = 90 := by ring
    rw [hdiff]
    first
      | (norm_num <;> decide)
      | norm_num

/-- Witness for C9: at `now = 100` seconds, the payment timestamp
10000 milliseconds (i.e. 90 seconds = 90000 ms before now) formats as
"1 minutes". -/
theorem c9_time_since_claim_witness :
    time_since 100 (1000 * 100 - 90000) = "1 minutes" :=
  c9_time_since_claim.2 100 (by norm_num)

/-! ## C10: terminal classification precedes the membership check -/

/-- C10: in `/track`, a fetched status that lower-cases to "approved"
or "updated" is reported immediately and the handler returns — for
EVERY storage, including one that already tracks the address — so the
stored item, its timestamps and the pending field are untouched, no
item is removed, exactly one reply (the status report) is sent, and no
"Already tracking" reply is produced. -/
theorem c10_terminal_before_membership
    (fetch : String → Option (String × ℚ × String)) (hdr : String → Option String)
    (now : ℚ) (arg : String) (rest : List String) (jobExists : Bool) (st : Storage)
    (status : String) (pts : ℚ) (sym : String)
    (hv : isValidSolanaAddress (pyStrip arg) = true)
    (hf : fetch (pyStrip arg) = some (status, pts, sym))
    (hne : status ≠ "")
    (hterm : pyLower status = "approved" ∨ pyLower status = "updated") :
    track_command fetch hdr now (arg :: rest) jobExists st =
      (st,
       [match hdr (pyStrip arg) with
        | some h =>
          if pyLower status = "approved" then
            Sent.photo h ((if sym = "" then "Unknown" else sym) ++ " (" ++ pyStrip arg ++
              ")\nStatus: " ++ status ++
              (if time_since now pts ≠ "Unknown" then
                "\nPayment Time: " ++ time_since now pts ++ " ago" else ""))
          else Sent.text ((if sym = "" then "Unknown" else sym) ++ " (" ++ pyStrip arg ++
              ")\nStatus: " ++ status ++
              (if time_since now pts ≠ "Unknown" then
                "\nPayment Time: " ++ time_since now pts ++ " ago" else ""))
        | none => Sent.text ((if sym = "" then "Unknown" else sym) ++ " (" ++ pyStrip arg ++
              ")\nStatus: " ++ status ++
              (if time_since now pts ≠ "Unknown" then
                "\nPayment Time: " ++ time_since now pts ++ " ago" else ""))],
       false) := by
  simp only [track_command, hf]
  rw [if_neg (by simp [hv]), if_neg hne, if_pos hterm]

/-- Witness for C10: the address is ALREADY tracked, yet the terminal
status "approved" short-circuits before the membership check: storage
is unchanged and the only reply is the status report, not
"Already tracking". -/
theorem c10_terminal_before_membership_witness :
    track_command (fun _ => some ("approved", 0, "SYM")) (fun _ => none) 100
      ["AAAAAAAAAAAAAAAAAAAAAAAAAAAAAAAA"] false
      ⟨some [("AAAAAAAAAAAAAAAAAAAAAAAAAAAAAAAA", ⟨"SYM", "processing", 0⟩)], none⟩ =
      (⟨some [("AAAAAAAAAAAAAAAAAAAAAAAAAAAAAAAA", ⟨"SYM", "processing", 0⟩)], none⟩,
       [Sent.text "SYM (AAAAAAAAAAAAAAAAAAAAAAAAAAAAAAAA)\nStatus: approved"],
       false) :=
  c10_terminal_before_membership (fun _ => some ("approved", 0, "SYM")) (fun _ => none) 100
    "AAAAAAAAAAAAAAAAAAAAAAAAAAAAAAAA" [] false
    ⟨some [("AAAAAAAAAAAAAAAAAAAAAAAAAAAAAAAA", ⟨"SYM", "processing", 0⟩)], none⟩
    "approved" 0 "SYM" (by decide) rfl (by decide) (Or.inl rfl)
